import Mathlib

/-!
Shallow embedding of the weather MCP server sample
(`src/server.ts` and the HTTP dispatcher module).

JavaScript runtime values that flow through the tool handlers are modelled
by the inductive type `Jv` (JSON values plus `undefined`), and JS-specific
operations (truthiness, property access that throws on `null`/`undefined`,
template-literal stringification, `JSON.stringify`) are embedded as total
Lean functions.  Code that can raise a runtime `TypeError` is embedded in
`Except Unit`.  Outbound network calls are environment-dependent, so the
handlers take the result of `makeNWSRequest` (respectively the Azure
credential exchange plus Graph call) as an oracle argument; the internals
of `makeNWSRequest` itself are embedded separately over a `FetchOutcome`.
-/

/-- JavaScript values as they occur in this program: JSON values plus
`undefined`.  Numbers are modelled as integers (all numeric data reaching
the formatting code — temperatures, array lengths — is integral). -/
inductive Jv where
  | undef
  | null
  | bool (b : Bool)
  | num (n : Int)
  | str (s : String)
  | arr (elems : List Jv)
  | obj (fields : List (String × Jv))

/-- JavaScript truthiness of a value. -/
def truthy : Jv → Bool
  | .undef => false
  | .null => false
  | .bool b => b
  | .num n => n != 0
  | .str s => s != ""
  | .arr _ => true
  | .obj _ => true

/-- First binding of a key in an object's field list; `undefined` when the
key is absent (JS object property read). -/
def jsLookup : List (String × Jv) → String → Jv
  | [], _ => .undef
  | (k, v) :: fs, key => if k = key then v else jsLookup fs key

/-- JS property access `v.k`.  Throws a `TypeError` on `null`/`undefined`;
strings and arrays expose `length`; other primitives yield `undefined`. -/
def getField (v : Jv) (k : String) : Except Unit Jv :=
  match v with
  | .undef => .error ()
  | .null => .error ()
  | .obj fs => .ok (jsLookup fs k)
  | .arr xs => .ok (if k = "length" then .num xs.length else .undef)
  | .str s => .ok (if k = "length" then .num s.length else .undef)
  | .num _ => .ok .undef
  | .bool _ => .ok .undef

mutual
/-- JS string coercion (template-literal interpolation / `toString`). -/
def jsToString : Jv → String
  | .undef => "undefined"
  | .null => "null"
  | .bool true => "true"
  | .bool false => "false"
  | .num n => toString n
  | .str s => s
  | .arr xs => String.intercalate "," (jsJoinParts xs)
  | .obj _ => "[object Object]"

/-- Element renderings used by `Array.prototype.join`: `null` and
`undefined` render as the empty string. -/
def jsJoinParts : List Jv → List String
  | [] => []
  | .undef :: xs => "" :: jsJoinParts xs
  | .null :: xs => "" :: jsJoinParts xs
  | x :: xs => jsToString x :: jsJoinParts xs
end

/-- `v || dflt` in a template literal: the coerced value when truthy,
otherwise the fallback string. -/
def jsOr (v : Jv) (dflt : String) : String :=
  if truthy v then jsToString v else dflt

/-- Hexadecimal digits of `n`, lower case, padded to four places (the
`\uXXXX` form used by `JSON.stringify` for control characters). -/
def hex4 (n : Nat) : String :=
  let ds := String.mk (Nat.toDigits 16 n)
  String.mk (List.replicate (4 - ds.length) '0') ++ ds

/-- Escaping of one character inside a `JSON.stringify` string literal. -/
def jsonEscapeChar (c : Char) : String :=
  if c = '"' then "\\\""
  else if c = '\\' then "\\\\"
  else if c = '\n' then "\\n"
  else if c = '\r' then "\\r"
  else if c = '\t' then "\\t"
  else if c = '\x08' then "\\b"
  else if c = '\x0c' then "\\f"
  else if c.toNat < 32 then "\\u" ++ hex4 c.toNat
  else String.singleton c

/-- `JSON.stringify` of a string. -/
def jsonString (s : String) : String :=
  "\"" ++ String.join (s.data.map jsonEscapeChar) ++ "\""

/-- `JSON.stringify({alerts: msg})` (compact form, no spaces). -/
def stringifyAlerts (msg : String) : String :=
  "\x7b\"alerts\":" ++ jsonString msg ++ "\x7d"

/-- `JSON.stringify({forecast: msg})` (compact form, no spaces). -/
def stringifyForecast (msg : String) : String :=
  "\x7b\"forecast\":" ++ jsonString msg ++ "\x7d"

/-- JS `s.toUpperCase()`, embedded as a character-wise map (they agree on
ASCII input such as two-letter state codes). -/
def toUpperCase (s : String) : String :=
  String.mk (s.data.map Char.toUpper)

/-- `const NWS_API_BASE = "https://api.weather.gov"`. -/
def NWS_API_BASE : String := "https://api.weather.gov"

/-- `const USER_AGENT = "weather-app/1.0"` (sent on every NWS request). -/
def USER_AGENT : String := "weather-app/1.0"

/-- Outcome of one `fetch` of a URL as seen by `makeNWSRequest`: either the
promise rejects (network failure), or a response arrives with a status code
and a body whose JSON decoding may itself fail. -/
inductive FetchOutcome where
  | networkError
  | response (status : Nat) (body : Except Unit Jv)

/-- `makeNWSRequest`: wraps the whole fetch in `try`/`catch`; throws (and
hence returns `null`) unless `response.ok` (status 200–299), then parses the
body, returning `null` on a decode failure as well.  Total — the `catch`
converts every failure into `null`, never re-raising to the caller. -/
def makeNWSRequest : FetchOutcome → Option Jv
  | .networkError => none
  | .response status body =>
    if 200 ≤ status ∧ status ≤ 299 then
      match body with
      | .ok payload => some payload
      | .error _ => none
    else none

/-- `formatAlert(feature)`: reads `feature.properties` then the five
optional fields, each falling back under `||` to its placeholder.  Property
reads throw when the receiver is `null`/`undefined` (e.g. a feature with no
`properties` member). -/
def formatAlert (feature : Jv) : Except Unit String :=
  match getField feature "properties" with
  | .error e => .error e
  | .ok props =>
    match getField props "event" with
    | .error e => .error e
    | .ok event =>
      match getField props "areaDesc" with
      | .error e => .error e
      | .ok areaDesc =>
        match getField props "severity" with
        | .error e => .error e
        | .ok severity =>
          match getField props "status" with
          | .error e => .error e
          | .ok status =>
            match getField props "headline" with
            | .error e => .error e
            | .ok headline =>
              .ok (String.intercalate "\n"
                [ "Event: " ++ jsOr event "Unknown"
                , "Area: " ++ jsOr areaDesc "Unknown"
                , "Severity: " ++ jsOr severity "Unknown"
                , "Status: " ++ jsOr status "Unknown"
                , "Headline: " ++ jsOr headline "No headline"
                , "---" ])

/-- The per-period formatter inside the `get-forecast` handler
(`periods.map(...)`): six optional fields, each falling back under `||`
(`temperatureUnit` to `"F"`, `windDirection` to the empty string,
`shortForecast` to `"No forecast available"`; the degree glyph appears in
the source as the two bytes `Â°`). -/
def formatPeriod (period : Jv) : Except Unit String :=
  match getField period "name" with
  | .error e => .error e
  | .ok name =>
    match getField period "temperature" with
    | .error e => .error e
    | .ok temperature =>
      match getField period "temperatureUnit" with
      | .error e => .error e
      | .ok temperatureUnit =>
        match getField period "windSpeed" with
        | .error e => .error e
        | .ok windSpeed =>
          match getField period "windDirection" with
          | .error e => .error e
          | .ok windDirection =>
            match getField period "shortForecast" with
            | .error e => .error e
            | .ok shortForecast =>
              .ok (String.intercalate "\n"
                [ jsOr name "Unknown" ++ ":"
                , "Temperature: " ++ jsOr temperature "Unknown" ++ "Â°" ++
                    jsOr temperatureUnit "F"
                , "Wind: " ++ jsOr windSpeed "Unknown" ++ " " ++
                    jsOr windDirection ""
                , jsOr shortForecast "No forecast available"
                , "---" ])

/-- JS strict equality `v === 0` (true only for the number zero), used for
the `features.length === 0` / `periods.length === 0` tests. -/
def strictEqZero : Jv → Bool
  | .num n => n == 0
  | _ => false

/-- The result envelope of the two weather tools: `content[0].text` and the
single string field of `structuredContent` (`{alerts}` / `{forecast}`). -/
structure WeatherEnvelope where
  text : String
  structured : String
deriving DecidableEq

/-- URL of the alerts feed for an (already upper-cased) state code. -/
def alertsUrlOf (stateCode : String) : String :=
  NWS_API_BASE ++ "/alerts?area=" ++ stateCode

/-- The `get-alerts` tool handler.  `net` gives the outcome of each
outbound `fetch`; the handler consumes it through `makeNWSRequest` exactly
as the source awaits that helper.  A thrown `TypeError` (e.g. calling
`.map` on a non-array, or `formatAlert` on a feature without `properties`)
is the `.error` case. -/
def getAlerts (state : String) (net : String → FetchOutcome) :
    Except Unit WeatherEnvelope :=
  let stateCode := toUpperCase state
  let alertsUrl := alertsUrlOf stateCode
  let alertsData := makeNWSRequest (net alertsUrl)
  -- `if (!alertsData)`: null result or a falsy JSON payload
  match alertsData with
  | none =>
    .ok { text := stringifyAlerts "Failed to retrieve alerts data"
        , structured := "Failed to retrieve alerts data" }
  | some d =>
    if truthy d then
      match getField d "features" with
      | .error e => .error e
      | .ok featuresRaw =>
        -- `alertsData.features || []`
        let features := if truthy featuresRaw then featuresRaw else Jv.arr []
        match getField features "length" with
        | .error e => .error e
        | .ok lenV =>
          if strictEqZero lenV then
            let msg := "No active alerts for " ++ stateCode
            .ok { text := stringifyAlerts msg, structured := msg }
          else
            -- `features.map(formatAlert)` throws unless `features` is an array
            match features with
            | .arr xs =>
              match xs.mapM formatAlert with
              | .error e => .error e
              | .ok formattedAlerts =>
                let alertsText := "Active alerts for " ++ stateCode ++ ":\n\n" ++
                  String.intercalate "\n" formattedAlerts
                .ok { text := alertsText, structured := alertsText }
            | _ => .error ()
    else
      .ok { text := stringifyAlerts "Failed to retrieve alerts data"
          , structured := "Failed to retrieve alerts data" }

/-- A JS number as the forecast handler consumes it: its template-literal
rendering `${n}` and its `n.toFixed(4)` rendering.  The handler uses the
number only through these two conversions, so the embedding carries them
directly. -/
structure JsNumber where
  plain : String
  fixed4 : String
deriving DecidableEq

/-- ```${NWS_API_BASE}/points/${latitude.toFixed(4)},${longitude.toFixed(4)}```. -/
def pointsUrlOf (latitude longitude : JsNumber) : String :=
  NWS_API_BASE ++ "/points/" ++ latitude.fixed4 ++ "," ++ longitude.fixed4

/-- Optional chaining `v.k1?.k2` (as in `pointsData.properties?.forecast`
and `forecastData.properties?.periods`). -/
def optChainField (v : Jv) (k1 k2 : String) : Except Unit Jv :=
  match getField v k1 with
  | .error e => .error e
  | .ok p =>
    match p with
    | .null => .ok .undef
    | .undef => .ok .undef
    | _ => getField p k2

/-- The grid-point failure message of the `get-forecast` handler. -/
def gridFailMessage (latitude longitude : JsNumber) : String :=
  "Failed to retrieve grid point data for coordinates: " ++ latitude.plain ++
    ", " ++ longitude.plain ++
    ". This location may not be supported by the NWS API (only US locations are supported)."

/-- The `get-forecast` tool handler.  Besides the envelope it returns the
list of URLs it fetched, in order, recording each `makeNWSRequest` call. -/
def getForecast (latitude longitude : JsNumber) (net : String → FetchOutcome) :
    Except Unit (WeatherEnvelope × List String) :=
  let pointsUrl := pointsUrlOf latitude longitude
  match makeNWSRequest (net pointsUrl) with
  | none =>
    let msg := gridFailMessage latitude longitude
    .ok ({ text := stringifyForecast msg, structured := msg }, [pointsUrl])
  | some pointsData =>
    if truthy pointsData then
      match optChainField pointsData "properties" "forecast" with
      | .error e => .error e
      | .ok forecastUrlV =>
        if truthy forecastUrlV then
          -- `fetch` coerces the URL value to a string
          let forecastUrl := jsToString forecastUrlV
          match makeNWSRequest (net forecastUrl) with
          | none =>
            let msg := "Failed to retrieve forecast data"
            .ok ({ text := stringifyForecast msg, structured := msg },
                 [pointsUrl, forecastUrl])
          | some forecastData =>
            if truthy forecastData then
              match optChainField forecastData "properties" "periods" with
              | .error e => .error e
              | .ok periodsRaw =>
                -- `forecastData.properties?.periods || []`
                let periods := if truthy periodsRaw then periodsRaw else Jv.arr []
                match getField periods "length" with
                | .error e => .error e
                | .ok lenV =>
                  if strictEqZero lenV then
                    let msg := "No forecast periods available"
                    .ok ({ text := stringifyForecast msg, structured := msg },
                         [pointsUrl, forecastUrl])
                  else
                    match periods with
                    | .arr xs =>
                      match xs.mapM formatPeriod with
                      | .error e => .error e
                      | .ok formattedForecast =>
                        let forecastText := "Forecast for " ++ latitude.plain ++
                          ", " ++ longitude.plain ++ ":\n\n" ++
                          String.intercalate "\n" formattedForecast
                        .ok ({ text := forecastText, structured := forecastText },
                             [pointsUrl, forecastUrl])
                    | _ => .error ()
            else
              let msg := "Failed to retrieve forecast data"
              .ok ({ text := stringifyForecast msg, structured := msg },
                   [pointsUrl, forecastUrl])
        else
          let msg := "Failed to get forecast URL from grid point data"
          .ok ({ text := stringifyForecast msg, structured := msg }, [pointsUrl])
    else
      let msg := gridFailMessage latitude longitude
      .ok ({ text := stringifyForecast msg, structured := msg }, [pointsUrl])

/-- First binding of a (lower-cased) header name in the inbound header map
(`headers['authorization']`); `none` models a JS `undefined` read. -/
def lookupHeader : List (String × String) → String → Option String
  | [], _ => none
  | (k, v) :: hs, key => if k = key then some v else lookupHeader hs key

/-- Structured content of the `get_current_user` tool
(`{authenticated, user?, message?}`).  The `content[0].text` of its
envelope is `JSON.stringify` of this same value, so the structured form
determines the whole envelope. -/
structure IdOutput where
  authenticated : Bool
  user : Option Jv := none
  message : Option String := none

/-- The no-headers result: `{authenticated: false, message: 'No
authentication headers found'}`. -/
def noAuthMessage : String := "No authentication headers found"

/-- The catch-all failure message of the identity handler, built from the
deployment hostname (`process.env.WEBSITE_HOSTNAME`). -/
def consentMessage (hostname : String) : String :=
  "Error during token exchange and Graph API call. You\x27re logged in but might need to grant consent to the application. Open a browser to the following link to consent: https://" ++
    hostname ++ "/.auth/login/aad?post_login_redirect_uri=https://" ++
    hostname ++ "/authcomplete"

/-- Object spread `{ ...v }`: objects copy their fields, arrays and strings
spread to index-keyed fields, primitives spread to nothing. -/
def jsSpread : Jv → List (String × Jv)
  | .obj fs => fs
  | .arr xs => xs.enum.map (fun p => (toString p.1, p.2))
  | .str s => s.data.enum.map (fun p => (toString p.1, Jv.str (String.singleton p.2)))
  | _ => []

/-- JS assignment `obj[k] = v` for a key already present: every binding of
the key is overwritten in place (object keys are unique, so at most one
binding changes). -/
def setField (fs : List (String × Jv)) (k : String) (v : Jv) : List (String × Jv) :=
  fs.map (fun p => if p.1 = k then (k, v) else p)

/-- The masking block of the identity handler: copy `graphData` by spread;
if `businessPhones` is truthy, map each element to `'[MASKED]'` (a truthy
non-array would make `.map` throw); if `id` is truthy, overwrite it with
`'[MASKED]'`. -/
def maskUser (graphData : Jv) : Except Unit (List (String × Jv)) :=
  let fs := jsSpread graphData
  let bp := jsLookup fs "businessPhones"
  match (if truthy bp then
           match bp with
           | .arr xs =>
             .ok (setField fs "businessPhones" (.arr (xs.map fun _ => .str "[MASKED]")))
           | _ => .error ()
         else .ok fs : Except Unit (List (String × Jv))) with
  | .error e => .error e
  | .ok fs1 =>
    let idv := jsLookup fs1 "id"
    .ok (if truthy idv then setField fs1 "id" (.str "[MASKED]") else fs1)

/-- The `get_current_user` tool handler.  `headers` is
`extra?.requestInfo?.headers` (absent or a header map); `exchange` is the
oracle for the whole guarded credential chain — managed-identity token,
On-Behalf-Of token, Graph `/v1.0/me` fetch and its JSON decoding — which
lives in external Azure/fetch libraries and is invoked with the token taken
from the authorization header (`undefined` when the header value has no
second space-separated part).  Returns the structured output together with
the number of times the credential chain was started (the claims only need
zero versus nonzero).  The `try`/`catch` converts every thrown error —
including the `TypeError` from splitting a missing authorization header and
a `.map` failure during masking — into the consent-message result. -/
def get_current_user (headers : Option (List (String × String)))
    (hostname : String) (exchange : Option String → Except Unit Jv) :
    IdOutput × Nat :=
  match headers with
  | none => ({ authenticated := false, message := some noAuthMessage }, 0)
  | some hs =>
    match lookupHeader hs "authorization" with
    | none =>
      -- `(undefined as string).split(' ')` throws; caught below
      ({ authenticated := false, message := some (consentMessage hostname) }, 0)
    | some rawAuth =>
      let authToken := (rawAuth.splitOn " ")[1]?
      match exchange authToken with
      | .error _ =>
        ({ authenticated := false, message := some (consentMessage hostname) }, 1)
      | .ok graphData =>
        match maskUser graphData with
        | .error _ =>
          ({ authenticated := false, message := some (consentMessage hostname) }, 1)
        | .ok maskedUserData =>
          ({ authenticated := true
           , user := some (.obj maskedUserData)
           , message := some "Successfully retrieved user information from Microsoft Graph" }, 1)

/-!  The HTTP dispatcher module (`app.post/get/delete('/mcp')`).

Instance identity is modelled by tagging each constructed `McpServer` and
`StreamableHTTPServerTransport` with a serial number drawn from an
allocation counter.  `const server = createServer()` runs once at module
load; each POST allocates only a transport. -/

/-- Allocation state for constructed instances. -/
structure AllocState where
  nextId : Nat
deriving DecidableEq

/-- Construct one fresh instance (identified by its serial number). -/
def allocInstance (s : AllocState) : Nat × AllocState :=
  (s.nextId, { nextId := s.nextId + 1 })

/-- `createServer()`: builds and returns one fresh `McpServer` with the
three tools registered. -/
def createServer (s : AllocState) : Nat × AllocState :=
  allocInstance s

/-- Module state of the dispatcher file after load:
`const server = createServer()` has run exactly once. -/
structure ModuleState where
  alloc : AllocState
  moduleServer : Nat
deriving DecidableEq

/-- Module initialisation: the single top-level `createServer()` call. -/
def moduleInit : ModuleState :=
  let (sid, a) := createServer { nextId := 0 }
  { alloc := a, moduleServer := sid }

/-- The registry/transport pair that ends up serving one POST request. -/
structure ServedRequest where
  serverId : Nat
  transportId : Nat
deriving DecidableEq

/-- `app.post('/mcp')`: constructs a fresh transport, then connects the
module-level `server` to it and delegates the request. -/
def handlePost (s : ModuleState) : ServedRequest × ModuleState :=
  let (tid, a) := allocInstance s.alloc
  ({ serverId := s.moduleServer, transportId := tid }, { s with alloc := a })

/-- HTTP verbs on the `/mcp` endpoint.  `other` is any verb with no
registered route (PUT, PATCH, ...). -/
inductive HttpVerb where
  | post
  | get
  | delete
  | other
deriving DecidableEq

/-- Outcome of the transport dispatch inside the POST route's `try`: clean
completion, or a throw observed by the `catch` with `res.headersSent`
still false, or a throw after the response headers already went out. -/
inductive PostOutcome where
  | ok (body : String)
  | errNotSent
  | errSent
deriving DecidableEq

/-- A JSON-RPC error body `{jsonrpc:'2.0', error:{code, message}, id:null}`. -/
structure JsonRpcError where
  code : Int
  message : String
deriving DecidableEq

/-- What the dispatcher writes back for one request to `/mcp`. -/
inductive McpResponse where
  /-- POST: response produced by the connected transport. -/
  | transportHandled (body : String)
  /-- An explicit status + JSON-RPC error body written by this module. -/
  | jsonError (status : Nat) (err : JsonRpcError)
  /-- `catch` with `res.headersSent` true: nothing further is written. -/
  | alreadySent
  /-- No route registered for the verb: the framework's default
  (`express`) not-found handling, not a body written by this module. -/
  | frameworkDefault
deriving DecidableEq

/-- The GET/DELETE body: code `-32000`, `"Method not allowed."`. -/
def methodNotAllowedBody : JsonRpcError := ⟨-32000, "Method not allowed."⟩

/-- The POST catch body: code `-32603`, `"Internal server error"`. -/
def internalErrorBody : JsonRpcError := ⟨-32603, "Internal server error"⟩

/-- Routing of one request to `/mcp` by verb, per the three registered
routes: GET and DELETE answer 405 with the fixed `-32000` body; POST
delegates to the transport and maps a throw to a 500 `-32603` body only
when headers were not already sent; any other verb never reaches this
module's handlers. -/
def handleMcpRequest (verb : HttpVerb) (outcome : PostOutcome) : McpResponse :=
  match verb with
  | .post =>
    match outcome with
    | .ok body => .transportHandled body
    | .errNotSent => .jsonError 500 internalErrorBody
    | .errSent => .alreadySent
  | .get => .jsonError 405 methodNotAllowedBody
  | .delete => .jsonError 405 methodNotAllowedBody
  | .other => .frameworkDefault

/-- Whether `pat` occurs as a contiguous run somewhere in `s`. -/
def charsContain (pat : List Char) : List Char → Bool
  | [] => pat.isEmpty
  | c :: rest => pat.isPrefixOf (c :: rest) || charsContain pat rest

/-- Whether `pat` occurs as a substring of `s`. -/
def occursIn (pat s : String) : Bool :=
  charsContain pat.data s.data

/-! ### Helper lemmas -/

theorem strAppendAssoc (a b c : String) : (a ++ b) ++ c = a ++ (b ++ c) := by
  cases a with | _ la => cases b with | _ lb => cases c with | _ lc =>
  show String.mk ((la ++ lb) ++ lc) = String.mk (la ++ (lb ++ lc))
  rw [List.append_assoc]

theorem jsLookup_cons (pk : String) (pv : Jv) (fs : List (String × Jv))
    (key : String) :
    jsLookup ((pk, pv) :: fs) key = if pk = key then pv else jsLookup fs key :=
  rfl

theorem setField_cons (pk : String) (pv : Jv) (fs : List (String × Jv))
    (k : String) (v : Jv) :
    setField ((pk, pv) :: fs) k v =
      (if pk = k then (k, v) else (pk, pv)) :: setField fs k v :=
  rfl

theorem jsLookup_setField_self (fs : List (String × Jv)) (k : String) (v : Jv)
    (h : jsLookup fs k ≠ .undef) : jsLookup (setField fs k v) k = v := by
  induction fs with
  | nil => exact absurd rfl h
  | cons p fs ih =>
    obtain ⟨pk, pv⟩ := p
    rw [setField_cons]
    by_cases hk : pk = k
    · rw [if_pos hk, jsLookup_cons, if_pos rfl]
    · rw [if_neg hk, jsLookup_cons, if_neg hk]
      rw [jsLookup_cons, if_neg hk] at h
      exact ih h

theorem jsLookup_setField_ne (fs : List (String × Jv)) (k : String) (v : Jv)
    (k' : String) (h : k' ≠ k) :
    jsLookup (setField fs k v) k' = jsLookup fs k' := by
  induction fs with
  | nil => rfl
  | cons p fs ih =>
    obtain ⟨pk, pv⟩ := p
    rw [setField_cons]
    by_cases hk : pk = k
    · rw [if_pos hk, jsLookup_cons, jsLookup_cons,
        if_neg (fun hh => h hh.symm),
        if_neg (fun hh => h ((hk.symm.trans hh).symm))]
      exact ih
    · rw [if_neg hk, jsLookup_cons, jsLookup_cons]
      by_cases hk' : pk = k'
      · rw [if_pos hk', if_pos hk']
      · rw [if_neg hk', if_neg hk']
        exact ih

theorem mapM_ok_of_forall {α β : Type} (f : α → Except Unit β) :
    ∀ xs : List α, (∀ x ∈ xs, ∃ y, f x = .ok y) →
      ∃ ys, xs.mapM f = .ok ys := by
  intro xs
  induction xs with
  | nil => exact fun _ => ⟨[], rfl⟩
  | cons x xs ih =>
    intro h
    obtain ⟨y, hy⟩ := h x (List.mem_cons_self x xs)
    obtain ⟨ys, hys⟩ := ih (fun a ha => h a (List.mem_cons_of_mem x ha))
    refine ⟨y :: ys, ?_⟩
    rw [List.mapM_cons, hy, hys]
    rfl

theorem formatAlert_props (gs ps : List (String × Jv))
    (h : jsLookup gs "properties" = .obj ps) :
    formatAlert (.obj gs) = .ok (String.intercalate "\n"
      [ "Event: " ++ jsOr (jsLookup ps "event") "Unknown"
      , "Area: " ++ jsOr (jsLookup ps "areaDesc") "Unknown"
      , "Severity: " ++ jsOr (jsLookup ps "severity") "Unknown"
      , "Status: " ++ jsOr (jsLookup ps "status") "Unknown"
      , "Headline: " ++ jsOr (jsLookup ps "headline") "No headline"
      , "---" ]) := by
  simp [formatAlert, getField, h]

theorem formatPeriod_obj (qs : List (String × Jv)) :
    formatPeriod (.obj qs) = .ok (String.intercalate "\n"
      [ jsOr (jsLookup qs "name") "Unknown" ++ ":"
      , "Temperature: " ++ jsOr (jsLookup qs "temperature") "Unknown" ++ "Â°" ++
          jsOr (jsLookup qs "temperatureUnit") "F"
      , "Wind: " ++ jsOr (jsLookup qs "windSpeed") "Unknown" ++ " " ++
          jsOr (jsLookup qs "windDirection") ""
      , jsOr (jsLookup qs "shortForecast") "No forecast available"
      , "---" ]) := rfl

/-! ### Claims -/

/-- C1.  The claim asserts that every inbound protocol call gets both a
fresh tool-registry (`McpServer`) instance and a fresh transport instance.
The dispatcher module instead runs `const server = createServer()` once at
module load and connects that same instance in every POST handler — only
the transport is constructed per request.  Two consecutive requests are
served by the same registry instance (and distinct transports), refuting
the registry half of the claim; the code's own comment ("create a new
instance of transport and server for each request") documents the claimed
behavior, so the code is the slip. -/
theorem C1_registry_shared_across_requests :
    ((handlePost moduleInit).1.serverId =
        (handlePost (handlePost moduleInit).2).1.serverId) ∧
    ((handlePost moduleInit).1.transportId ≠
        (handlePost (handlePost moduleInit).2).1.transportId) := by
  decide

/-- C4.  `makeNWSRequest` yields a parsed payload exactly when the fetch
delivered a response with a 2xx status (`response.ok`) whose body decoded;
every other outcome — network failure, non-2xx status, decode failure — is
the absent-result signal `none`.  The helper is a total function: the
enclosing `try`/`catch` means no outcome raises to the caller. -/
theorem C4_makeNWSRequest_contract (o : FetchOutcome) (j : Jv) :
    makeNWSRequest o = some j ↔
      ∃ status, o = .response status (.ok j) ∧ 200 ≤ status ∧ status ≤ 299 := by
  cases o with
  | networkError => simp [makeNWSRequest]
  | response st body =>
    cases body with
    | ok p =>
      by_cases h : 200 ≤ st ∧ st ≤ 299
      · constructor
        · intro hc
          have hp : p = j := by simpa [makeNWSRequest, if_pos h] using hc
          exact ⟨st, by rw [hp], h.1, h.2⟩
        · rintro ⟨status, heq, -, -⟩
          injection heq with h1 h2
          injection h2 with h3
          simp [makeNWSRequest, if_pos h, h3]
      · constructor
        · intro hc
          exact absurd hc (by simp [makeNWSRequest, if_neg h])
        · rintro ⟨status, heq, h1, h2⟩
          injection heq with he1 he2
          subst he1
          exact absurd ⟨h1, h2⟩ h
    | error e =>
      constructor
      · intro hc
        simp only [makeNWSRequest] at hc
        split at hc <;> simp_all
      · rintro ⟨status, heq, -, -⟩
        injection heq with h1 h2
        injection h2

/-- C9 counterexample.  A request to `/mcp` with a verb that has no
registered route (e.g. PUT) is handled by the framework's default
not-found path, not by the fixed `-32000` "Method not allowed." body; and
a dispatch failure after response headers have been sent writes no
`-32603` body (`if (!res.headersSent)`). -/
theorem C9_counterexample :
    handleMcpRequest .other (.ok "") ≠ .jsonError 405 methodNotAllowedBody ∧
    handleMcpRequest .post .errSent ≠ .jsonError 500 internalErrorBody := by
  decide

/-- C9 (amended).  GET and DELETE on the protocol endpoint always answer
with status 405 and the fixed `-32000` "Method not allowed." body; a
dispatch failure on POST answers with status 500 and the `-32603`
"Internal server error" body exactly when response headers were not yet
sent (nothing is written once they were); verbs with no registered route
fall through to the framework default instead of the `-32000` body. -/
theorem C9_verb_and_error_bodies (outcome : PostOutcome) (body : String) :
    handleMcpRequest .get outcome = .jsonError 405 methodNotAllowedBody ∧
    handleMcpRequest .delete outcome = .jsonError 405 methodNotAllowedBody ∧
    handleMcpRequest .post .errNotSent = .jsonError 500 internalErrorBody ∧
    handleMcpRequest .post (.ok body) = .transportHandled body ∧
    handleMcpRequest .post .errSent = .alreadySent ∧
    handleMcpRequest .other outcome = .frameworkDefault :=
  ⟨rfl, rfl, rfl, rfl, rfl, rfl⟩

/-- C10.  Forecast-period fields present but falsy are rendered as their
fallback: temperature `0` renders as `"Unknown"`, an empty-string name,
unit, wind speed or short forecast renders as its fallback, because the
substitution is `field || fallback`, keyed on JS falsiness rather than on
absence. -/
theorem C10_falsy_placeholders (qs : List (String × Jv)) :
    jsLookup qs "name" = .str "" →
    jsLookup qs "temperature" = .num 0 →
    jsLookup qs "temperatureUnit" = .str "" →
    jsLookup qs "windSpeed" = .str "" →
    jsLookup qs "windDirection" = .undef →
    jsLookup qs "shortForecast" = .str "" →
    formatPeriod (.obj qs) =
      .ok "Unknown:\nTemperature: UnknownÂ°F\nWind: Unknown \nNo forecast available\n---" := by
  intro h1 h2 h3 h4 h5 h6
  rw [formatPeriod_obj, h1, h2, h3, h4, h5, h6]
  rfl

/-- C10 witness: a period carrying all six fields with falsy values (the
number `0` and empty strings) renders entirely as fallbacks. -/
theorem C10_witness :
    formatPeriod (.obj [("name", .str ""), ("temperature", .num 0),
        ("temperatureUnit", .str ""), ("windSpeed", .str ""),
        ("windDirection", .undef), ("shortForecast", .str "")]) =
      .ok "Unknown:\nTemperature: UnknownÂ°F\nWind: Unknown \nNo forecast available\n---" :=
  C10_falsy_placeholders _ rfl rfl rfl rfl rfl rfl

/-- C8 counterexample.  A forecast period with every optional field present
except `windDirection` renders that absent field as the empty string (the
wind line ends `"5 mph "` with nothing after the separator space), not as
a fixed placeholder: the formatted record contains no occurrence of
`"Unknown"` at all. -/
theorem C8_counterexample :
    formatPeriod (.obj [("name", .str "Tonight"), ("temperature", .num 60),
        ("temperatureUnit", .str "F"), ("windSpeed", .str "5 mph"),
        ("shortForecast", .str "Clear")]) =
      .ok "Tonight:\nTemperature: 60Â°F\nWind: 5 mph \nClear\n---" ∧
    occursIn "Unknown" "Tonight:\nTemperature: 60Â°F\nWind: 5 mph \nClear\n---" = false := by
  exact ⟨rfl, by decide⟩

/-- C8 (amended).  For alert features and forecast periods whose optional
fields are absent, each field renders as its fixed fallback — `"Unknown"`
for event/area/severity/status and name/temperature/wind speed,
`"No headline"` for the headline, `"F"` for the temperature unit and
`"No forecast available"` for the short forecast — except `windDirection`,
whose fallback is the empty string.  Formatting is a pure function of the
record, hence deterministic under repetition. -/
theorem C8_placeholders (ps qs : List (String × Jv)) :
    (∀ k, k ∈ ["event", "areaDesc", "severity", "status", "headline"] →
        jsLookup ps k = .undef) →
    (∀ k, k ∈ ["name", "temperature", "temperatureUnit", "windSpeed",
        "windDirection", "shortForecast"] → jsLookup qs k = .undef) →
    formatAlert (.obj [("properties", .obj ps)]) =
        .ok "Event: Unknown\nArea: Unknown\nSeverity: Unknown\nStatus: Unknown\nHeadline: No headline\n---" ∧
    formatPeriod (.obj qs) =
        .ok "Unknown:\nTemperature: UnknownÂ°F\nWind: Unknown \nNo forecast available\n---" := by
  intro hA hP
  constructor
  · rw [formatAlert_props [("properties", .obj ps)] ps (by simp [jsLookup]),
      hA "event" (by simp), hA "areaDesc" (by simp), hA "severity" (by simp),
      hA "status" (by simp), hA "headline" (by simp)]
    rfl
  · rw [formatPeriod_obj,
      hP "name" (by simp), hP "temperature" (by simp),
      hP "temperatureUnit" (by simp), hP "windSpeed" (by simp),
      hP "windDirection" (by simp), hP "shortForecast" (by simp)]
    rfl

/-- C8 witness: a feature and a period with no optional fields at all
render as the full fallback records. -/
theorem C8_witness :
    formatAlert (.obj [("properties", .obj [])]) =
        .ok "Event: Unknown\nArea: Unknown\nSeverity: Unknown\nStatus: Unknown\nHeadline: No headline\n---" ∧
    formatPeriod (.obj []) =
        .ok "Unknown:\nTemperature: UnknownÂ°F\nWind: Unknown \nNo forecast available\n---" :=
  C8_placeholders [] [] (fun _ _ => rfl) (fun _ _ => rfl)

/-- C2 counterexample.  A request whose header map is present but carries
no `authorization` entry has no bearer credential, yet the handler does not
return the "No authentication headers found" result: the guard only checks
for a missing header map, so the unguarded
`(headers['authorization'] as string).split(' ')` throws and the `catch`
answers with the consent-remediation message instead (still with no
credential-exchange call). -/
theorem C2_counterexample :
    (get_current_user (some [("content-type", "application/json")])
        "example.com" (fun _ => .error ())).2 = 0 ∧
    (get_current_user (some [("content-type", "application/json")])
        "example.com" (fun _ => .error ())).1.message ≠ some noAuthMessage := by
  decide

/-- C2 (amended).  When the request metadata carries no header map at all,
the handler returns exactly `{authenticated: false, message: "No
authentication headers found"}` without starting the credential exchange;
when a header map is present but has no `authorization` entry, the handler
returns the `authenticated: false` consent-remediation result, likewise
without starting the credential exchange. -/
theorem C2_unauthenticated_paths (hostname : String)
    (exchange : Option String → Except Unit Jv) :
    get_current_user none hostname exchange =
      ({ authenticated := false, message := some noAuthMessage }, 0) ∧
    ∀ hs, lookupHeader hs "authorization" = none →
      get_current_user (some hs) hostname exchange =
        ({ authenticated := false, message := some (consentMessage hostname) }, 0) := by
  refine ⟨rfl, fun hs h => ?_⟩
  simp [get_current_user, h]

/-- C2 witness: concrete instances of both unauthenticated paths. -/
theorem C2_witness :
    get_current_user (some [("content-type", "application/json")])
        "contoso.azurewebsites.net" (fun _ => .error ()) =
      ({ authenticated := false
       , message := some (consentMessage "contoso.azurewebsites.net") }, 0) :=
  (C2_unauthenticated_paths "contoso.azurewebsites.net" (fun _ => .error ())).2
    [("content-type", "application/json")] rfl

/-- C3 counterexample.  A successful exchange whose profile carries the
identifier `""` completes with `authenticated: true`, but the identifier is
not replaced by `'[MASKED]'`: the masking is guarded by JS truthiness
(`if (maskedUserData.id)`), and the empty string is falsy, so the raw
(empty) identifier field passes through unchanged. -/
theorem C3_counterexample :
    (get_current_user (some [("authorization", "Bearer tok")]) "example.com"
        (fun _ => .ok (.obj [("id", .str "")]))).1.authenticated = true ∧
    (get_current_user (some [("authorization", "Bearer tok")]) "example.com"
        (fun _ => .ok (.obj [("id", .str "")]))).1.user =
      some (.obj [("id", .str "")]) ∧
    Jv.str "" ≠ Jv.str "[MASKED]" := by
  refine ⟨rfl, rfl, fun hh => ?_⟩
  injection hh with hs
  exact absurd hs (by decide)

/-- C3 (amended).  For every successful identity exchange whose profile
carries a truthy (non-empty) identifier and a phone-number list, the
returned user object has the identifier replaced by `'[MASKED]'`, the
phone-number list replaced elementwise by `'[MASKED]'`, and every other
field passing through unchanged.  (A falsy — absent or empty — identifier
is left as is, per the counterexample.) -/
theorem C3_masking (hs : List (String × String)) (hostname rawAuth : String)
    (exchange : Option String → Except Unit Jv) (fs : List (String × Jv))
    (s : String) (ps : List Jv) :
    lookupHeader hs "authorization" = some rawAuth →
    exchange ((rawAuth.splitOn " ")[1]?) = .ok (.obj fs) →
    jsLookup fs "id" = .str s → s ≠ "" →
    jsLookup fs "businessPhones" = .arr ps →
    ∃ ms, get_current_user (some hs) hostname exchange =
        ({ authenticated := true, user := some (.obj ms)
         , message := some "Successfully retrieved user information from Microsoft Graph" }, 1) ∧
      jsLookup ms "id" = .str "[MASKED]" ∧
      jsLookup ms "businessPhones" =
        .arr (List.replicate ps.length (.str "[MASKED]")) ∧
      ∀ k, k ≠ "id" → k ≠ "businessPhones" → jsLookup ms k = jsLookup fs k := by
  intro hauth hex hid hne hbp
  have hbpne : jsLookup fs "businessPhones" ≠ .undef := by rw [hbp]; intro hh; cases hh
  have hid1 : jsLookup (setField fs "businessPhones"
      (.arr (List.replicate ps.length (.str "[MASKED]")))) "id" = .str s := by
    rw [jsLookup_setField_ne _ _ _ _ (by decide)]
    exact hid
  have hmask : maskUser (.obj fs) =
      .ok (setField (setField fs "businessPhones"
            (.arr (List.replicate ps.length (.str "[MASKED]")))) "id"
          (.str "[MASKED]")) := by
    simp [maskUser, jsSpread, hbp, truthy, hid1, hne]
  refine ⟨setField (setField fs "businessPhones"
      (.arr (List.replicate ps.length (.str "[MASKED]")))) "id" (.str "[MASKED]"),
    ?_, ?_, ?_, ?_⟩
  · simp [get_current_user, hauth, hex, hmask]
  · apply jsLookup_setField_self
    rw [hid1]
    intro hh; cases hh
  · rw [jsLookup_setField_ne _ _ _ _ (by decide)]
    exact jsLookup_setField_self _ _ _ hbpne
  · intro k hk1 hk2
    rw [jsLookup_setField_ne _ _ _ _ hk1, jsLookup_setField_ne _ _ _ _ hk2]

/-- C3 witness: a concrete successful exchange; the identifier and the one
phone number come back masked and the display name is untouched. -/
theorem C3_witness :
    ∃ ms, get_current_user (some [("authorization", "Bearer tok")])
        "contoso.azurewebsites.net"
        (fun _ => .ok (.obj [("id", .str "user-guid"),
            ("businessPhones", .arr [.str "+1 555 0100"]),
            ("displayName", .str "Ada Lovelace")])) =
        ({ authenticated := true, user := some (.obj ms)
         , message := some "Successfully retrieved user information from Microsoft Graph" }, 1) ∧
      jsLookup ms "id" = .str "[MASKED]" ∧
      jsLookup ms "businessPhones" = .arr [.str "[MASKED]"] ∧
      jsLookup ms "displayName" = .str "Ada Lovelace" := by
  obtain ⟨ms, h1, h2, h3, h4⟩ :=
    C3_masking [("authorization", "Bearer tok")] "contoso.azurewebsites.net"
      "Bearer tok"
      (fun _ => .ok (.obj [("id", .str "user-guid"),
          ("businessPhones", .arr [.str "+1 555 0100"]),
          ("displayName", .str "Ada Lovelace")]))
      [("id", .str "user-guid"), ("businessPhones", .arr [.str "+1 555 0100"]),
       ("displayName", .str "Ada Lovelace")]
      "user-guid" [.str "+1 555 0100"] rfl rfl rfl (by decide) rfl
  refine ⟨ms, h1, h2, h3, ?_⟩
  rw [h4 "displayName" (by decide) (by decide)]
  rfl

/-- C7 counterexample.  With an upstream payload whose `features` list is
empty, the structured form's `alerts` field is exactly
`"No active alerts for CA"`, but the output text (`content[0].text`) is the
`JSON.stringify` of the structured object — `{"alerts":"No active alerts
for CA"}` — not the bare message, because the zero-alerts branch (unlike
the success branch) serialises the whole output object into the text. -/
theorem C7_counterexample :
    getAlerts "CA" (fun _ => .response 200 (.ok (.obj [("features", Jv.arr [])]))) =
      .ok { text := "\x7b\"alerts\":\"No active alerts for CA\"\x7d"
          , structured := "No active alerts for CA" } ∧
    "\x7b\"alerts\":\"No active alerts for CA\"\x7d" ≠ "No active alerts for CA" := by
  exact ⟨rfl, by decide⟩

/-- C7 (amended).  For every state input whose upstream alerts feed
succeeds with an empty `features` list, the structured form's `alerts`
field equals exactly `"No active alerts for <CODE>"` (with `<CODE>` the
upper-cased state code), and the display text is the `JSON.stringify` of
that structured object. -/
theorem C7_no_alerts (state : String) (net : String → FetchOutcome)
    (fs : List (String × Jv)) :
    makeNWSRequest (net (alertsUrlOf (toUpperCase state))) = some (.obj fs) →
    jsLookup fs "features" = .arr [] →
    getAlerts state net =
      .ok { text := stringifyAlerts ("No active alerts for " ++ toUpperCase state)
          , structured := "No active alerts for " ++ toUpperCase state } := by
  intro hfetch hfs
  simp [getAlerts, hfetch, truthy, getField, hfs, strictEqZero]

/-- C7 witness: the amended statement at state `"CA"` with a concrete
200-status empty-features payload. -/
theorem C7_witness :
    getAlerts "CA" (fun _ => .response 200 (.ok (.obj [("features", Jv.arr [])]))) =
      .ok { text := stringifyAlerts ("No active alerts for " ++ toUpperCase "CA")
          , structured := "No active alerts for " ++ toUpperCase "CA" } :=
  C7_no_alerts "CA" _ [("features", Jv.arr [])] rfl rfl

/-- C5.  When the grid-point lookup returns the absent-result signal, the
forecast handler answers with the fixed failure message — which contains
the rendered latitude and longitude and the sentence "only US locations
are supported" — and performs exactly one outbound fetch (the points URL);
the forecast-URL fetch is never attempted. -/
theorem C5_grid_failure (latitude longitude : JsNumber)
    (net : String → FetchOutcome) :
    makeNWSRequest (net (pointsUrlOf latitude longitude)) = none →
    getForecast latitude longitude net =
      .ok ({ text := stringifyForecast (gridFailMessage latitude longitude)
           , structured := gridFailMessage latitude longitude },
           [pointsUrlOf latitude longitude]) ∧
    (∃ a b c, gridFailMessage latitude longitude =
        a ++ latitude.plain ++ b ++ longitude.plain ++ c) ∧
    (∃ d e, gridFailMessage latitude longitude =
        d ++ "only US locations are supported" ++ e) := by
  intro h
  refine ⟨?_, ?_, ?_⟩
  · simp [getForecast, h]
  · exact ⟨"Failed to retrieve grid point data for coordinates: ", ", ",
      ". This location may not be supported by the NWS API (only US locations are supported).",
      rfl⟩
  · refine ⟨"Failed to retrieve grid point data for coordinates: " ++
      latitude.plain ++ ", " ++ longitude.plain ++
      ". This location may not be supported by the NWS API (", ").", ?_⟩
    simp only [gridFailMessage, strAppendAssoc]
    rfl

/-- C5 witness: concrete coordinates with a failing points lookup. -/
theorem C5_witness :
    getForecast ⟨"40.7128", "40.7128"⟩ ⟨"-74.006", "-74.0060"⟩
        (fun _ => .networkError) =
      .ok ({ text := stringifyForecast
               (gridFailMessage ⟨"40.7128", "40.7128"⟩ ⟨"-74.006", "-74.0060"⟩)
           , structured :=
               gridFailMessage ⟨"40.7128", "40.7128"⟩ ⟨"-74.006", "-74.0060"⟩ },
           [pointsUrlOf ⟨"40.7128", "40.7128"⟩ ⟨"-74.006", "-74.0060"⟩]) :=
  (C5_grid_failure ⟨"40.7128", "40.7128"⟩ ⟨"-74.006", "-74.0060"⟩
    (fun _ => .networkError) rfl).1

/-- Property access on a non-`null`, non-`undefined` receiver never
throws. -/
theorem getField_ok (v : Jv) (h1 : v ≠ .null) (h2 : v ≠ .undef) (k : String) :
    ∃ w, getField v k = .ok w := by
  cases v with
  | undef => exact absurd rfl h2
  | null => exact absurd rfl h1
  | bool b => exact ⟨_, rfl⟩
  | num n => exact ⟨_, rfl⟩
  | str s => exact ⟨_, rfl⟩
  | arr xs => exact ⟨_, rfl⟩
  | obj fs => exact ⟨_, rfl⟩

theorem truthy_ne_null (v : Jv) (hv : truthy v = true) : v ≠ .null := by
  intro h; subst h; exact absurd hv (by decide)

theorem truthy_ne_undef (v : Jv) (hv : truthy v = true) : v ≠ .undef := by
  intro h; subst h; exact absurd hv (by decide)

/-- Optional chaining on a truthy receiver never throws. -/
theorem truthy_undef : truthy .undef = false := rfl

theorem truthy_null : truthy .null = false := rfl

theorem truthy_bool (b : Bool) : truthy (.bool b) = b := rfl

theorem truthy_num (n : Int) : truthy (.num n) = (n != 0) := rfl

theorem truthy_str (s : String) : truthy (.str s) = (s != "") := rfl

theorem truthy_arr (xs : List Jv) : truthy (.arr xs) = true := rfl

theorem truthy_obj (fs : List (String × Jv)) : truthy (.obj fs) = true := rfl

/-- Optional chaining on a truthy receiver never throws. -/
theorem optChainField_ok (v : Jv) (hv : truthy v = true) (k1 k2 : String) :
    ∃ w, optChainField v k1 k2 = .ok w := by
  obtain ⟨p, hp⟩ := getField_ok v (truthy_ne_null v hv) (truthy_ne_undef v hv) k1
  cases p with
  | undef => exact ⟨.undef, by simp only [optChainField, hp]⟩
  | null => exact ⟨.undef, by simp only [optChainField, hp]⟩
  | bool b => exact ⟨.undef, by simp only [optChainField, hp]; exact rfl⟩
  | num n => exact ⟨.undef, by simp only [optChainField, hp]; exact rfl⟩
  | str s => exact ⟨_, by simp only [optChainField, hp]; exact rfl⟩
  | arr xs => exact ⟨_, by simp only [optChainField, hp]; exact rfl⟩
  | obj fs => exact ⟨_, by simp only [optChainField, hp]; exact rfl⟩

/-- A forecast period that is not `null`/`undefined` always formats. -/
theorem formatPeriod_ok_of_nonNullish (x : Jv)
    (h1 : x ≠ .null) (h2 : x ≠ .undef) : ∃ s, formatPeriod x = .ok s := by
  cases x with
  | undef => exact absurd rfl h2
  | null => exact absurd rfl h1
  | bool b => exact ⟨_, rfl⟩
  | num n => exact ⟨_, rfl⟩
  | str s => exact ⟨_, rfl⟩
  | arr xs => exact ⟨_, rfl⟩
  | obj qs => exact ⟨_, formatPeriod_obj qs⟩

/-- The test `xs.length === 0` is false for a nonempty array (stated in
the cast-normal form simp produces for `(x :: xs).length`). -/
theorem strictEqZero_intCast_succ (n : Nat) :
    strictEqZero (.num ((n : Int) + 1)) = false := by
  simp only [strictEqZero, beq_eq_false_iff_ne, ne_eq]
  omega

/-- Well-shapedness of an alerts payload: if it is an object, its
`features` member is falsy or an array of objects each carrying an object
`properties` member.  (Any non-object payload is harmless: its `features`
read yields `undefined` and the handler falls back to the empty list.) -/
def alertsShapeOk (d : Jv) : Prop :=
  ∀ fs, d = .obj fs →
    truthy (jsLookup fs "features") = false ∨
    ∃ xs, jsLookup fs "features" = .arr xs ∧
      ∀ f ∈ xs, ∃ gs ps, f = .obj gs ∧ jsLookup gs "properties" = .obj ps

/-- Well-shapedness of a forecast payload: its `properties?.periods` chain
yields a falsy value or an array with no `null`/`undefined` elements. -/
def forecastShapeOk (d : Jv) : Prop :=
  ∀ v, optChainField d "properties" "periods" = .ok v →
    truthy v = false ∨ ∃ xs, v = .arr xs ∧ ∀ x ∈ xs, x ≠ .null ∧ x ≠ .undef

theorem getAlerts_ok_of_shape (state : String) (net : String → FetchOutcome)
    (hshape : ∀ url d, makeNWSRequest (net url) = some d → alertsShapeOk d) :
    ∃ env, getAlerts state net = .ok env := by
  cases hfetch : makeNWSRequest (net (alertsUrlOf (toUpperCase state))) with
  | none =>
    exact ⟨{ text := stringifyAlerts "Failed to retrieve alerts data"
           , structured := "Failed to retrieve alerts data" },
      by simp [getAlerts, hfetch]⟩
  | some d =>
    have hd := hshape _ _ hfetch
    have noAlertsEnv :
        getAlerts state net =
          .ok { text := stringifyAlerts ("No active alerts for " ++ toUpperCase state)
              , structured := "No active alerts for " ++ toUpperCase state } →
        ∃ env, getAlerts state net = .ok env :=
      fun h => ⟨_, h⟩
    cases d with
    | undef =>
      exact ⟨{ text := stringifyAlerts "Failed to retrieve alerts data"
             , structured := "Failed to retrieve alerts data" },
        by simp [getAlerts, hfetch, truthy_undef]⟩
    | null =>
      exact ⟨{ text := stringifyAlerts "Failed to retrieve alerts data"
             , structured := "Failed to retrieve alerts data" },
        by simp [getAlerts, hfetch, truthy_null]⟩
    | bool b =>
      cases b with
      | false =>
        exact ⟨{ text := stringifyAlerts "Failed to retrieve alerts data"
               , structured := "Failed to retrieve alerts data" },
          by simp [getAlerts, hfetch, truthy_bool]⟩
      | true =>
        exact noAlertsEnv (by
          simp [getAlerts, hfetch, truthy_bool, truthy_undef, truthy_arr,
            getField, strictEqZero])
    | num n =>
      by_cases hn : n = 0
      · exact ⟨{ text := stringifyAlerts "Failed to retrieve alerts data"
               , structured := "Failed to retrieve alerts data" },
          by simp [getAlerts, hfetch, truthy_num, hn]⟩
      · exact noAlertsEnv (by
          simp [getAlerts, hfetch, truthy_num, truthy_undef, truthy_arr, hn,
            getField, strictEqZero])
    | str s =>
      by_cases hs : s = ""
      · exact ⟨{ text := stringifyAlerts "Failed to retrieve alerts data"
               , structured := "Failed to retrieve alerts data" },
          by simp [getAlerts, hfetch, truthy_str, hs]⟩
      · exact noAlertsEnv (by
          simp [getAlerts, hfetch, truthy_str, truthy_undef, truthy_arr, hs,
            getField, strictEqZero])
    | arr xs =>
      exact noAlertsEnv (by
        simp [getAlerts, hfetch, truthy_arr, truthy_undef, getField, strictEqZero])
    | obj fs =>
      rcases hd fs rfl with hft | ⟨xs, hxs, hfeat⟩
      · exact noAlertsEnv (by
          simp [getAlerts, hfetch, truthy_obj, truthy_arr, getField, hft,
            strictEqZero])
      · cases xs with
        | nil =>
          exact noAlertsEnv (by
            simp [getAlerts, hfetch, truthy_obj, truthy_arr, getField, hxs,
              strictEqZero])
        | cons x xs' =>
          obtain ⟨ys, hys⟩ := mapM_ok_of_forall formatAlert (x :: xs')
            (fun f hf => by
              obtain ⟨gs, ps, rfl, hgs⟩ := hfeat f hf
              exact ⟨_, formatAlert_props gs ps hgs⟩)
          have hys' : List.mapM.loop formatAlert (x :: xs') [] = Except.ok ys := hys
          exact ⟨{ text := "Active alerts for " ++ toUpperCase state ++ ":\n\n" ++
                     String.intercalate "\n" ys
                 , structured := "Active alerts for " ++ toUpperCase state ++ ":\n\n" ++
                     String.intercalate "\n" ys },
            by simp [getAlerts, hfetch, truthy_obj, truthy_arr, getField, hxs,
              strictEqZero_intCast_succ, hys, hys']⟩

theorem getForecast_ok_of_shape (latitude longitude : JsNumber)
    (net : String → FetchOutcome)
    (hshape : ∀ url d, makeNWSRequest (net url) = some d → forecastShapeOk d) :
    ∃ env urls, getForecast latitude longitude net = .ok (env, urls) := by
  cases hfetch1 : makeNWSRequest (net (pointsUrlOf latitude longitude)) with
  | none =>
    exact ⟨{ text := stringifyForecast (gridFailMessage latitude longitude)
           , structured := gridFailMessage latitude longitude },
      [pointsUrlOf latitude longitude], by simp [getForecast, hfetch1]⟩
  | some pd =>
    cases ht1 : truthy pd with
    | false =>
      exact ⟨{ text := stringifyForecast (gridFailMessage latitude longitude)
             , structured := gridFailMessage latitude longitude },
        [pointsUrlOf latitude longitude], by simp [getForecast, hfetch1, ht1]⟩
    | true =>
      obtain ⟨w, hw⟩ := optChainField_ok pd ht1 "properties" "forecast"
      cases ht2 : truthy w with
      | false =>
        exact ⟨{ text := stringifyForecast "Failed to get forecast URL from grid point data"
               , structured := "Failed to get forecast URL from grid point data" },
          [pointsUrlOf latitude longitude],
          by simp [getForecast, hfetch1, ht1, hw, ht2]⟩
      | true =>
        cases hfetch2 : makeNWSRequest (net (jsToString w)) with
        | none =>
          exact ⟨{ text := stringifyForecast "Failed to retrieve forecast data"
                 , structured := "Failed to retrieve forecast data" },
            [pointsUrlOf latitude longitude, jsToString w],
            by simp [getForecast, hfetch1, ht1, hw, ht2, hfetch2]⟩
        | some fd =>
          cases ht3 : truthy fd with
          | false =>
            exact ⟨{ text := stringifyForecast "Failed to retrieve forecast data"
                   , structured := "Failed to retrieve forecast data" },
              [pointsUrlOf latitude longitude, jsToString w],
              by simp [getForecast, hfetch1, ht1, hw, ht2, hfetch2, ht3]⟩
          | true =>
            obtain ⟨v, hv⟩ := optChainField_ok fd ht3 "properties" "periods"
            rcases hshape _ _ hfetch2 v hv with hvf | ⟨xs, rfl, helem⟩
            · exact ⟨{ text := stringifyForecast "No forecast periods available"
                     , structured := "No forecast periods available" },
                [pointsUrlOf latitude longitude, jsToString w],
                by simp [getForecast, hfetch1, ht1, hw, ht2, hfetch2, ht3, hv,
                  hvf, truthy_arr, getField, strictEqZero]⟩
            · cases xs with
              | nil =>
                exact ⟨{ text := stringifyForecast "No forecast periods available"
                       , structured := "No forecast periods available" },
                  [pointsUrlOf latitude longitude, jsToString w],
                  by simp [getForecast, hfetch1, ht1, hw, ht2, hfetch2, ht3, hv,
                    truthy_arr, getField, strictEqZero]⟩
              | cons x xs' =>
                obtain ⟨ys, hys⟩ := mapM_ok_of_forall formatPeriod (x :: xs')
                  (fun f hf => formatPeriod_ok_of_nonNullish f
                    (helem f hf).1 (helem f hf).2)
                have hys' : List.mapM.loop formatPeriod (x :: xs') [] = Except.ok ys :=
                  hys
                exact ⟨{ text := "Forecast for " ++ latitude.plain ++ ", " ++
                           longitude.plain ++ ":\n\n" ++ String.intercalate "\n" ys
                       , structured := "Forecast for " ++ latitude.plain ++ ", " ++
                           longitude.plain ++ ":\n\n" ++ String.intercalate "\n" ys },
                  [pointsUrlOf latitude longitude, jsToString w],
                  by simp [getForecast, hfetch1, ht1, hw, ht2, hfetch2, ht3, hv,
                    truthy_arr, getField, strictEqZero_intCast_succ, hys, hys']⟩


/-- C6 counterexample.  An alerts payload whose `features` array holds a
feature object with no `properties` member makes the `get-alerts` handler
throw a `TypeError` (reading `.event` of `undefined` inside
`formatAlert`): the handler has no `try`/`catch`, so the exception escapes
to the dispatcher rather than being converted to a result envelope. -/
theorem C6_counterexample :
    getAlerts "CA"
        (fun _ => .response 200 (.ok (.obj [("features", .arr [.obj []])]))) =
      .error () :=
  rfl

/-- C6 (amended).  The weather handlers return a well-formed envelope —
never an exception — for every upstream payload that is well-shaped (alert
features are objects with an object `properties` member; forecast periods
are absent, falsy, or an array of non-`null` records); the identity
handler's body is fully guarded, which the embedding reflects by its total
return type.  Arbitrarily malformed payloads are not guarded against, per
the counterexample. -/
theorem C6_handlers_no_throw :
    (∀ state net,
      (∀ url d, makeNWSRequest (net url) = some d → alertsShapeOk d) →
      ∃ env, getAlerts state net = .ok env) ∧
    (∀ latitude longitude net,
      (∀ url d, makeNWSRequest (net url) = some d → forecastShapeOk d) →
      ∃ env urls, getForecast latitude longitude net = .ok (env, urls)) :=
  ⟨getAlerts_ok_of_shape, getForecast_ok_of_shape⟩

/-- C6 witness: both handlers at concrete inputs (a failing fetch
trivially satisfies the shape hypotheses). -/
theorem C6_witness :
    (∃ env, getAlerts "CA" (fun _ => .networkError) = .ok env) ∧
    (∃ env urls, getForecast ⟨"40.7128", "40.7128"⟩ ⟨"-74.006", "-74.0060"⟩
        (fun _ => .networkError) = .ok (env, urls)) :=
  ⟨C6_handlers_no_throw.1 "CA" (fun _ => .networkError)
      (fun _ d h => by simp [makeNWSRequest] at h),
   C6_handlers_no_throw.2 ⟨"40.7128", "40.7128"⟩ ⟨"-74.006", "-74.0060"⟩
      (fun _ => .networkError)
      (fun _ d h => by simp [makeNWSRequest] at h)⟩
